import Mathlib

set_option autoImplicit false

namespace RustCpython

/-- A raw C pointer, modelled as a natural number; 0 stands for the NULL pointer. -/
abbrev Ptr := Nat

/-- The bytes of a C string (for capsule names), without the terminating 0 byte. -/
abbrev CName := List Nat

/-- A CPython exception, identified abstractly by a numeric identity. -/
abbrev PyErr := Nat

/-- The Rust standard library error returned by CString::new when the supplied
bytes contain a 0 byte. -/
inductive NulError where
  | mk
  deriving DecidableEq

/-- Modelled from the spec: a capsule is a CPython object wrapping an opaque
native pointer plus a dotted name (glossary of the spec); its in-interpreter
representation is missing from src, so it is modelled as this record. -/
structure Capsule where
  pointer : Ptr
  name : CName
  deriving DecidableEq

/-- The visible interpreter state: the registry of capsules reachable by dotted
name, the thread-local pending exception state, and the reference counts. -/
structure PyState where
  capsules : List (CName × Ptr)
  pending : Option PyErr
  refcnt : Ptr → Int

/-- Rust std CString::new: fails with NulError exactly when the byte string
contains a 0 byte, otherwise yields the same bytes (to which the C terminator
is appended). -/
def CString.new (bytes : CName) : Except NulError CName :=
  if bytes.contains 0 then Except.error NulError.mk else Except.ok bytes

/-- Exception identity used by the modelled capsule lookup failure. -/
def pyExcLookupFailed : PyErr := 1

/-- Modelled from the spec: PyCapsule_New is declared by the python3-sys crate
but implemented inside CPython (missing from src); per the spec glossary it
creates a capsule object wrapping the opaque pointer and the dotted name. -/
def PyCapsule_New (pointer : Ptr) (name : CName) : Capsule :=
  { pointer := pointer, name := name }

/-- Modelled from the spec: PyCapsule_GetPointer is implemented inside CPython
(missing from src); capsule identity is by name, so it returns the stored
pointer when the given name matches the capsule name exactly and NULL
otherwise. -/
def PyCapsule_GetPointer (caps : Capsule) (name : CName) : Ptr :=
  if caps.name == name then caps.pointer else 0

/-- Modelled from the spec: PyCapsule_Import is implemented inside CPython
(missing from src); it looks a capsule up by its dotted name in the
interpreter registry, and on failure returns NULL after setting the
thread-local exception state. -/
def PyCapsule_Import (py : PyState) (name : CName) (_noBlock : Nat) : Ptr × PyState :=
  match py.capsules.lookup name with
  | some p => (p, py)
  | none => (0, { py with pending := some pyExcLookupFailed })

/-- Modelled from the spec: PyErr::fetch (err.rs is missing from src) retrieves
the CPython exception from the thread-local interpreter state, clearing that
state. -/
def PyErr.fetch (py : PyState) : PyErr × PyState :=
  (py.pending.getD 0, { py with pending := none })

/-- Modelled from the spec: PyErr::restore puts an exception back into the
thread-local interpreter state (used when a callback surfaces an error to the
interpreter). -/
def PyErr.restore (e : PyErr) (py : PyState) : PyState :=
  { py with pending := some e }

/-- The cast performed by dereferencing a capsule data pointer as a typed
reference; on the underlying address it is the identity. -/
def castDataRef (p : Ptr) : Ptr := p

/-- mem::transmute of a pointer into the target capsule signature; on the
underlying address it is the identity. -/
def transmute (p : Ptr) : Ptr := p

/-- PyCapsule::import from src/src/objects/capsule.rs: performs the single call
PyCapsule_Import(name, 0); if the returned pointer is NULL it returns Err with
the exception fetched from the thread-local state, otherwise Ok with exactly
that pointer. Named with a trailing underscore because the source name is a
reserved word in Lean. -/
def PyCapsule.import_ (py : PyState) (name : CName) : Except PyErr Ptr × PyState :=
  let r := PyCapsule_Import py name 0
  let caps_ptr := r.1
  let py := r.2
  if caps_ptr = 0 then
    let f := PyErr.fetch py
    (Except.error f.1, f.2)
  else
    (Except.ok caps_ptr, py)

/-- PyCapsule::import_data from src/src/objects/capsule.rs: delegates to the
PyCapsule import method and casts the resulting pointer to a reference,
propagating its error unchanged. -/
def PyCapsule.import_data (py : PyState) (name : CName) : Except PyErr Ptr × PyState :=
  match PyCapsule.import_ py name with
  | (Except.error e, py) => (Except.error e, py)
  | (Except.ok p, py) => (Except.ok (castDataRef p), py)

/-- retrieve_capsule from src/src/capsule.rs: performs the single call
PyCapsule_Import(name, 0); on NULL returns Err with the fetched exception,
otherwise Ok with the pointer cast to a reference. -/
def retrieve_capsule (py : PyState) (name : CName) : Except PyErr Ptr × PyState :=
  let from_caps := PyCapsule_Import py name 0
  if from_caps.1 = 0 then
    let f := PyErr.fetch from_caps.2
    (Except.error f.1, f.2)
  else
    (Except.ok (castDataRef from_caps.1), from_caps.2)

/-- The retrieval function generated by the py_capsule macro of
src/src/capsule.rs for a given dotted name (the macro assembles the name from
its identifier arguments at expansion time; here the assembled name is the
parameter): the single call PyCapsule_Import(name, 0), Err with the fetched
exception on NULL, otherwise Ok of the transmuted pointer. -/
def py_capsule_retrieve (py : PyState) (caps_name : CName) : Except PyErr Ptr × PyState :=
  let from_caps := PyCapsule_Import py caps_name 0
  if from_caps.1 = 0 then
    let f := PyErr.fetch from_caps.2
    (Except.error f.1, f.2)
  else
    (Except.ok (transmute from_caps.1), from_caps.2)

/-- PyCapsule::new from src/src/objects/capsule.rs: converts the name with
CString::new (surfacing NulError on a 0 byte before any C call), then calls
PyCapsule_New and wraps the owned pointer (the spec-modelled PyCapsule_New
always succeeds, so the panic branch of cast_from_owned_ptr_or_panic is not
taken); the name is deliberately leaked and the interpreter state is returned
untouched. -/
def PyCapsule.new (py : PyState) (pointer : Ptr) (name : CName) :
    Except NulError Capsule × PyState :=
  match CString.new name with
  | Except.error e => (Except.error e, py)
  | Except.ok cname => (Except.ok (PyCapsule_New pointer cname), py)

/-- PyCapsule::new_data from src/src/objects/capsule.rs: casts the data
reference to a raw pointer and delegates to PyCapsule::new. -/
def PyCapsule.new_data (py : PyState) (data : Ptr) (name : CName) :
    Except NulError Capsule × PyState :=
  PyCapsule.new py data name

/-- PyCapsule::data_ref_cstr from src/src/objects/capsule.rs: calls
PyCapsule_GetPointer with the capsule and the name and casts the result to a
reference, with no error check of any kind. -/
def PyCapsule.data_ref_cstr (caps : Capsule) (name : CName) : Ptr :=
  castDataRef (PyCapsule_GetPointer caps name)

/-- PyCapsule::data_ref from src/src/objects/capsule.rs: converts the name with
CString::new (surfacing NulError on a 0 byte) and delegates to
data_ref_cstr. -/
def PyCapsule.data_ref (caps : Capsule) (name : CName) : Except NulError Ptr :=
  match CString.new name with
  | Except.error e => Except.error e
  | Except.ok cn => Except.ok (PyCapsule.data_ref_cstr caps cn)

/-- The PyGetSetDef C struct of the CPython ABI, as declared by the python3-sys
crate: an attribute name (C string pointer), optional getter and setter C
function pointers (modelled abstractly by optional identifiers), a doc string
pointer and a closure pointer. -/
structure PyGetSetDef where
  name : Ptr
  get : Option Nat
  set : Option Nat
  doc : Ptr
  closure : Ptr
  deriving DecidableEq

/-- The all-null PyGetSetDef entry the macro pushes last: name, get, set, doc
and closure are all null. -/
def nullGetSetDef : PyGetSetDef :=
  { name := 0, get := none, set := none, doc := 0, closure := 0 }

/-- The parts of a CPython type object relevant here: the tp_getset descriptor
table pointer (none stands for NULL or for whatever it held before), plus two
unrelated representative fields used to state frame conditions. -/
structure TypeObject where
  tp_name : Ptr
  tp_basicsize : Int
  tp_getset : Option (List PyGetSetDef)
  deriving DecidableEq

/-- py_class_init_attributes from src/src/py_class/attributes.rs: with an empty
property block the macro expands to an empty statement; otherwise it pushes the
given PyGetSetDef entries in order into a vector, pushes the all-null sentinel
entry, and stores the boxed array into the tp_getset field of the type
object. -/
def py_class_init_attributes (t : TypeObject) (props : List PyGetSetDef) : TypeObject :=
  match props with
  | [] => t
  | _ :: _ => { t with tp_getset := some (props ++ [nullGetSetDef]) }

/-- Increment of the reference count of one object. -/
def incref (p : Ptr) (py : PyState) : PyState :=
  { py with refcnt := fun q => if q = p then py.refcnt q + 1 else py.refcnt q }

/-- Decrement of the reference count of one object. -/
def decref (p : Ptr) (py : PyState) : PyState :=
  { py with refcnt := fun q => if q = p then py.refcnt q - 1 else py.refcnt q }

/-- Modelled from the spec: PyObject::from_borrowed_ptr (object.rs is missing
from src) acquires the borrowed reference at the boundary, incrementing its
reference count, and returns the object. -/
def PyObject.from_borrowed_ptr (py : PyState) (p : Ptr) : Ptr × PyState :=
  (p, incref p py)

/-- Modelled from the spec: PyDrop::release_ref (missing from src) releases a
reference acquired at the boundary, decrementing its reference count. -/
def PyDrop.release_ref (p : Ptr) (py : PyState) : PyState :=
  decref p py

/-- Modelled from the spec: handle_callback with PyObjectCallbackConverter
(missing from src) surfaces an Ok object as its pointer, and surfaces an Err by
restoring the exception into the thread-local state and returning NULL to the
interpreter. -/
def handle_callback_obj (py : PyState) (r : Except PyErr Ptr) : Ptr × PyState :=
  match r with
  | Except.ok v => (v, py)
  | Except.error e => (0, PyErr.restore e py)

/-- Modelled from the spec: handle_callback with UnitCallbackConverter (missing
from src) surfaces an Ok unit result as the C int 0, and surfaces an Err by
restoring the exception into the thread-local state and returning -1. -/
def handle_callback_unit (py : PyState) (r : Except PyErr Unit) : Int × PyState :=
  match r with
  | Except.ok _ => (0, py)
  | Except.error e => (-1, PyErr.restore e py)

/-- wrap_getter_method generated by py_class_attribute_impl in
src/src/py_class/attributes.rs, parameterized by the user getter method: the
self object is acquired with from_borrowed_ptr, the user method is called, the
self reference is released, and the result goes through handle_callback. -/
def wrap_getter_method (meth : Ptr → Except PyErr Ptr) (py : PyState) (slf : Ptr) :
    Ptr × PyState :=
  let a := PyObject.from_borrowed_ptr py slf
  let slfObj := a.1
  let py := a.2
  let ret := meth slfObj
  let py := PyDrop.release_ref slfObj py
  handle_callback_obj py ret

/-- wrap_setter_method generated by py_class_attribute_impl in
src/src/py_class/attributes.rs, parameterized by the FromPyObject extraction of
the declared value type and by the user setter method: self and value are
acquired with from_borrowed_ptr, the extraction result is chained into the user
method with and_then, both references are released, and the result goes through
handle_callback. -/
def wrap_setter_method {V : Type} (extract : Ptr → Except PyErr V)
    (meth : Ptr → V → Except PyErr Unit) (py : PyState) (slf value : Ptr) :
    Int × PyState :=
  let a := PyObject.from_borrowed_ptr py slf
  let slfObj := a.1
  let py := a.2
  let b := PyObject.from_borrowed_ptr py value
  let valueObj := b.1
  let py := b.2
  let ret := (extract valueObj).bind (fun v => meth slfObj v)
  let py := PyDrop.release_ref slfObj py
  let py := PyDrop.release_ref valueObj py
  handle_callback_unit py ret

/-- Twos-complement decoding of a w-bit pattern into an integer value. -/
def toSigned (w : Nat) (b : Nat) : Int :=
  if b < 2 ^ (w - 1) then (b : Int) else (b : Int) - 2 ^ w

/-- The set of values representable in the signed pointer-sized integer type of
width w (twos complement). -/
def ssizeRepresentable (w : Nat) (x : Int) : Prop :=
  ∃ b : Nat, b < 2 ^ w ∧ x = toSigned w b

/-- Rust isize::MIN for pointer width w: the value of the bit pattern with only
the sign bit set. -/
def isizeMIN (w : Nat) : Int := toSigned w (2 ^ (w - 1))

/-- Rust isize::MAX for pointer width w: the value of the bit pattern with all
bits but the sign bit set. -/
def isizeMAX (w : Nat) : Int := toSigned w (2 ^ (w - 1) - 1)

/-- PY_SSIZE_T_MIN from src/python3-sys/src/pyport.rs: isize::MIN cast to
Py_ssize_t; both types have the pointer width, so the cast is the identity. -/
def PY_SSIZE_T_MIN (w : Nat) : Int := isizeMIN w

/-- PY_SSIZE_T_MAX from src/python3-sys/src/pyport.rs: isize::MAX cast to
Py_ssize_t; both types have the pointer width, so the cast is the identity. -/
def PY_SSIZE_T_MAX (w : Nat) : Int := isizeMAX w

/-- A concrete capsule name used by the concrete witnesses. -/
def wName : CName := [117, 110]

/-- A concrete capsule name containing a 0 byte, used by the counterexample. -/
def nulName : CName := [115, 0, 109]

/-- A concrete interpreter state whose registry binds wName to the pointer 5
and whose thread-local exception state is clear. -/
def wState : PyState :=
  { capsules := [(wName, 5)], pending := none, refcnt := fun _ => 0 }

/-- A concrete interpreter state with an empty capsule registry and a clear
thread-local exception state. -/
def wStateEmpty : PyState :=
  { capsules := [], pending := none, refcnt := fun _ => 0 }

/-- C1: for every capsule name, the import operations perform the single call
PyCapsule_Import(name, 0) and return Err with the exception fetched from the
thread-local interpreter state exactly when that call returns NULL; when the
returned pointer is non-null they return Ok carrying exactly that pointer
(respectively the reference obtained by casting it), with no other outcome
possible. -/
theorem capsule_import_err_iff_null (py py1 : PyState) (name : CName) (p : Ptr)
    (h : PyCapsule_Import py name 0 = (p, py1)) :
    (p = 0 →
      PyCapsule.import_ py name = (Except.error (PyErr.fetch py1).1, (PyErr.fetch py1).2)
      ∧ retrieve_capsule py name = (Except.error (PyErr.fetch py1).1, (PyErr.fetch py1).2))
    ∧ (p ≠ 0 →
      PyCapsule.import_ py name = (Except.ok p, py1)
      ∧ retrieve_capsule py name = (Except.ok (castDataRef p), py1))
    ∧ (∀ e py2, PyCapsule.import_ py name = (Except.error e, py2) → p = 0)
    ∧ (∀ e py2, retrieve_capsule py name = (Except.error e, py2) → p = 0) := by
  refine ⟨fun hp => ?_, fun hp => ?_, fun e py2 he => ?_, fun e py2 he => ?_⟩
  · simp [PyCapsule.import_, retrieve_capsule, h, hp]
  · simp [PyCapsule.import_, retrieve_capsule, h, hp]
  · by_cases hp : p = 0
    · exact hp
    · simp [PyCapsule.import_, h, hp] at he
  · by_cases hp : p = 0
    · exact hp
    · simp [retrieve_capsule, h, hp] at he

/-- Witness for C1: at a concrete state binding the name to the pointer 5,
both retrieval operations return Ok 5 leaving the state untouched. -/
theorem capsule_import_err_iff_null_witness :
    PyCapsule.import_ wState wName = (Except.ok 5, wState)
    ∧ retrieve_capsule wState wName = (Except.ok (castDataRef 5), wState) :=
  (capsule_import_err_iff_null wState wState wName 5 rfl).2.1 (by decide)

/-- C2: capsule identity is by name: for every pointer p and every name n with
no 0 byte, creating a capsule with PyCapsule::new (or new_data over a
reference) and reading it back with data_ref or data_ref_cstr under exactly
the same name yields exactly the stored pointer p. -/
theorem capsule_name_roundtrip (py : PyState) (p : Ptr) (n : CName)
    (h : ¬ n.contains 0 = true) :
    ∃ caps : Capsule,
      PyCapsule.new py p n = (Except.ok caps, py)
      ∧ PyCapsule.new_data py p n = (Except.ok caps, py)
      ∧ PyCapsule.data_ref_cstr caps n = p
      ∧ PyCapsule.data_ref caps n = Except.ok p := by
  have hm : ¬ 0 ∈ n := by simpa using h
  refine ⟨PyCapsule_New p n, ?_, ?_, ?_, ?_⟩
  · simp [PyCapsule.new, CString.new, hm]
  · simp [PyCapsule.new_data, PyCapsule.new, CString.new, hm]
  · simp [PyCapsule.data_ref_cstr, PyCapsule_GetPointer, PyCapsule_New, castDataRef]
  · simp [PyCapsule.data_ref, CString.new, hm, PyCapsule.data_ref_cstr,
      PyCapsule_GetPointer, PyCapsule_New, castDataRef]

/-- Witness for C2 at the concrete pointer 5 and the concrete name wName. -/
theorem capsule_name_roundtrip_witness :
    ∃ caps : Capsule,
      PyCapsule.new wStateEmpty 5 wName = (Except.ok caps, wStateEmpty)
      ∧ PyCapsule.new_data wStateEmpty 5 wName = (Except.ok caps, wStateEmpty)
      ∧ PyCapsule.data_ref_cstr caps wName = 5
      ∧ PyCapsule.data_ref caps wName = Except.ok 5 :=
  capsule_name_roundtrip wStateEmpty 5 wName (by decide)

/-- C8: whenever the PyCapsule import method returns Ok(p), the pointer p is
non-null, and the references produced on the Ok path by import_data and by
retrieve_capsule are obtained by casting that same non-null pointer. -/
theorem capsule_import_ok_nonnull (py py2 : PyState) (name : CName) (p : Ptr)
    (h : PyCapsule.import_ py name = (Except.ok p, py2)) :
    p ≠ 0
    ∧ PyCapsule.import_data py name = (Except.ok (castDataRef p), py2)
    ∧ retrieve_capsule py name = (Except.ok (castDataRef p), py2) := by
  by_cases hp : (PyCapsule_Import py name 0).1 = 0
  · simp [PyCapsule.import_, hp] at h
  · have h' := h
    simp [PyCapsule.import_, hp] at h'
    refine ⟨?_, ?_, ?_⟩
    · rw [← h'.1]; exact hp
    · simp [PyCapsule.import_data, h, castDataRef]
    · simp [retrieve_capsule, hp, castDataRef]
      exact ⟨h'.1, h'.2⟩


/-- Witness for C8 at a concrete state where the import method returns Ok 5. -/
theorem capsule_import_ok_nonnull_witness :
    (5 : Ptr) ≠ 0
    ∧ PyCapsule.import_data wState wName = (Except.ok (castDataRef 5), wState)
    ∧ retrieve_capsule wState wName = (Except.ok (castDataRef 5), wState) :=
  capsule_import_ok_nonnull wState wState wName 5 rfl

/-- C6: the three capsule-retrieval implementations agree on every name and
every interpreter state: retrieve_capsule, the PyCapsule import_data method,
and the function generated by the py_capsule macro produce identical results
and identical final states. -/
theorem retrieval_impls_equivalent (py : PyState) (name : CName) :
    retrieve_capsule py name = PyCapsule.import_data py name
    ∧ retrieve_capsule py name = py_capsule_retrieve py name := by
  constructor
  · by_cases hp : (PyCapsule_Import py name 0).1 = 0
    · simp [retrieve_capsule, PyCapsule.import_data, PyCapsule.import_, hp]
    · simp [retrieve_capsule, PyCapsule.import_data, PyCapsule.import_, hp,
        castDataRef]
  · by_cases hp : (PyCapsule_Import py name 0).1 = 0
    · simp [retrieve_capsule, py_capsule_retrieve, hp]
    · simp [retrieve_capsule, py_capsule_retrieve, hp, castDataRef, transmute]

/-- C3 counterexample: PyCapsule::new at a name containing a 0 byte surfaces an
error although the thread-local interpreter state holds no exception at all
and is left untouched, so this error is a host-side NulError produced before
any C call, not a CPython exception fetched from interpreter state. -/
theorem capsule_error_origin_cex :
    PyCapsule.new wStateEmpty 5 nulName = (Except.error NulError.mk, wStateEmpty)
    ∧ wStateEmpty.pending = none :=
  ⟨rfl, rfl⟩

/-- C3 amended: errors surfaced by the import operations are CPython exceptions
fetched from thread-local state after PyCapsule_Import returned NULL; new,
new_data and data_ref surface only the host-side NulError, exactly when the
name contains a 0 byte and with the interpreter state untouched; and
data_ref_cstr surfaces no error at all, even when PyCapsule_GetPointer returns
NULL, which it silently casts. -/
theorem capsule_error_origin_amended :
    (∀ py name e py2, PyCapsule.import_ py name = (Except.error e, py2) →
      (PyCapsule_Import py name 0).1 = 0
      ∧ e = (PyErr.fetch (PyCapsule_Import py name 0).2).1)
    ∧ (∀ py name e py2, PyCapsule.import_data py name = (Except.error e, py2) →
      (PyCapsule_Import py name 0).1 = 0
      ∧ e = (PyErr.fetch (PyCapsule_Import py name 0).2).1)
    ∧ (∀ py p n e py2, PyCapsule.new py p n = (Except.error e, py2) →
      n.contains 0 = true ∧ py2 = py ∧ e = NulError.mk)
    ∧ (∀ py p n e py2, PyCapsule.new_data py p n = (Except.error e, py2) →
      n.contains 0 = true ∧ py2 = py ∧ e = NulError.mk)
    ∧ (∀ caps n e, PyCapsule.data_ref caps n = Except.error e →
      n.contains 0 = true ∧ e = NulError.mk)
    ∧ (∀ caps n, PyCapsule_GetPointer caps n = 0 →
      PyCapsule.data_ref_cstr caps n = castDataRef 0) := by
  refine ⟨fun py name e py2 h => ?_, fun py name e py2 h => ?_,
    fun py p n e py2 h => ?_, fun py p n e py2 h => ?_,
    fun caps n e h => ?_, fun caps n h => ?_⟩
  · by_cases hp : (PyCapsule_Import py name 0).1 = 0
    · simp [PyCapsule.import_, hp] at h
      exact ⟨hp, h.1.symm⟩
    · simp [PyCapsule.import_, hp] at h
  · by_cases hp : (PyCapsule_Import py name 0).1 = 0
    · simp [PyCapsule.import_data, PyCapsule.import_, hp] at h
      exact ⟨hp, h.1.symm⟩
    · simp [PyCapsule.import_data, PyCapsule.import_, hp] at h
  · by_cases hn : n.contains 0 = true
    · have hm : 0 ∈ n := by simpa using hn
      simp [PyCapsule.new, CString.new, hm] at h
      exact ⟨hn, h.symm, (by cases e; rfl)⟩
    · have hm : ¬ 0 ∈ n := by simpa using hn
      simp [PyCapsule.new, CString.new, hm] at h
  · by_cases hn : n.contains 0 = true
    · have hm : 0 ∈ n := by simpa using hn
      simp [PyCapsule.new_data, PyCapsule.new, CString.new, hm] at h
      exact ⟨hn, h.symm, (by cases e; rfl)⟩
    · have hm : ¬ 0 ∈ n := by simpa using hn
      simp [PyCapsule.new_data, PyCapsule.new, CString.new, hm] at h
  · by_cases hn : n.contains 0 = true
    · exact ⟨hn, by cases e; rfl⟩
    · have hm : ¬ 0 ∈ n := by simpa using hn
      simp [PyCapsule.data_ref, CString.new, hm] at h
  · simp [PyCapsule.data_ref_cstr, h, castDataRef]

/-- Witness for the amended C3 at concrete inputs: a failing new call on a name
with a 0 byte, evaluated through the amended theorem. -/
theorem capsule_error_origin_amended_witness :
    nulName.contains 0 = true ∧ wStateEmpty = wStateEmpty ∧ NulError.mk = NulError.mk :=
  capsule_error_origin_amended.2.2.1 wStateEmpty 5 nulName NulError.mk wStateEmpty rfl

/-- C4: for every non-empty list of property definitions the attribute
initializer stores in tp_getset the given entries in their given order,
followed by exactly one terminating sentinel entry whose name, get, set, doc
and closure fields are all null. -/
theorem init_attributes_sentinel_layout (t : TypeObject) (props : List PyGetSetDef)
    (h : props ≠ []) :
    (py_class_init_attributes t props).tp_getset = some (props ++ [nullGetSetDef])
    ∧ nullGetSetDef.name = 0 ∧ nullGetSetDef.get = none ∧ nullGetSetDef.set = none
    ∧ nullGetSetDef.doc = 0 ∧ nullGetSetDef.closure = 0 := by
  refine ⟨?_, rfl, rfl, rfl, rfl, rfl⟩
  match props with
  | [] => exact absurd rfl h
  | d :: ds => rfl

/-- A concrete type object used by the attribute witnesses. -/
def wTypeObject : TypeObject :=
  { tp_name := 7, tp_basicsize := 16, tp_getset := none }

/-- A concrete getter-only descriptor entry used by the attribute witnesses. -/
def wGetSet : PyGetSetDef :=
  { name := 3, get := some 1, set := none, doc := 0, closure := 0 }

/-- Witness for C4 with the one-element property list at a concrete type
object. -/
theorem init_attributes_sentinel_layout_witness :
    (py_class_init_attributes wTypeObject [wGetSet]).tp_getset
      = some ([wGetSet] ++ [nullGetSetDef])
    ∧ nullGetSetDef.name = 0 ∧ nullGetSetDef.get = none ∧ nullGetSetDef.set = none
    ∧ nullGetSetDef.doc = 0 ∧ nullGetSetDef.closure = 0 :=
  init_attributes_sentinel_layout wTypeObject [wGetSet] (by decide)

/-- C10: with an empty attribute list the initializer performs no action at
all: the type object, tp_getset field included, is returned unchanged, and no
sentinel-terminated array is installed. -/
theorem init_attributes_empty_noop (t : TypeObject) :
    py_class_init_attributes t [] = t := rfl

/-- C5: in the generated attribute getter and setter wrappers every reference
acquired at the boundary with from_borrowed_ptr (the self object, and for the
setter also the value object) is released with release_ref before the wrapper
returns, on the success and on the error path alike, so for every object the
net reference-count change of a wrapper invocation is zero. -/
theorem wrapper_refcount_balanced {V : Type} (extract : Ptr → Except PyErr V)
    (meth_g : Ptr → Except PyErr Ptr) (meth_s : Ptr → V → Except PyErr Unit)
    (py : PyState) (slf value q : Ptr) :
    ((wrap_getter_method meth_g py slf).2).refcnt q = py.refcnt q
    ∧ ((wrap_setter_method extract meth_s py slf value).2).refcnt q = py.refcnt q := by
  constructor
  · rcases hr : meth_g slf with e | v <;>
      simp [wrap_getter_method, PyObject.from_borrowed_ptr, PyDrop.release_ref,
        handle_callback_obj, PyErr.restore, incref, decref, hr] <;>
      split_ifs <;> omega
  · rcases hr : (extract value).bind (fun v => meth_s slf v) with e | u <;>
      simp [wrap_setter_method, PyObject.from_borrowed_ptr, PyDrop.release_ref,
        handle_callback_unit, PyErr.restore, incref, decref, hr] <;>
      split_ifs <;> omega

/-- C9: in the generated setter wrapper the user setter method runs exactly
when extraction of the incoming value to the declared Rust type succeeds: on
extraction failure the wrapper result does not depend on the user method at
all, the wrapper surfaces the extraction error (minus one with the error
restored into the thread-local state); on extraction success the result is
exactly the conversion of the user method outcome. -/
theorem setter_extract_gates_meth {V : Type} (extract : Ptr → Except PyErr V)
    (meth meth2 : Ptr → V → Except PyErr Unit) (py : PyState) (slf value : Ptr) :
    (∀ e, extract value = Except.error e →
      wrap_setter_method extract meth py slf value
        = wrap_setter_method extract meth2 py slf value
      ∧ (wrap_setter_method extract meth py slf value).1 = -1
      ∧ (wrap_setter_method extract meth py slf value).2.pending = some e)
    ∧ (∀ v, extract value = Except.ok v →
      wrap_setter_method extract meth py slf value
        = handle_callback_unit
            (PyDrop.release_ref value (PyDrop.release_ref slf
              (incref value (incref slf py))))
            (meth slf v)) := by
  constructor
  · intro e he
    refine ⟨?_, ?_, ?_⟩ <;>
      simp [wrap_setter_method, PyObject.from_borrowed_ptr, he, Except.bind,
        handle_callback_unit, PyErr.restore, PyDrop.release_ref, decref, incref]
  · intro v hv
    simp [wrap_setter_method, PyObject.from_borrowed_ptr, hv, Except.bind,
      PyDrop.release_ref]

/-- A concrete extraction that always fails with exception 7, for the C9
witness. -/
def wExtractErr : Ptr → Except PyErr Nat := fun _ => Except.error 7

/-- A concrete user setter method that always succeeds, for the C9 witness. -/
def wMeth : Ptr → Nat → Except PyErr Unit := fun _ _ => Except.ok ()

/-- A second, observably different user setter method, for the C9 witness. -/
def wMeth2 : Ptr → Nat → Except PyErr Unit := fun _ _ => Except.error 9

/-- Witness for C9: with a failing extraction at concrete arguments, the
wrapper ignores which user method is installed, returns minus one and leaves
the extraction error in the thread-local state. -/
theorem setter_extract_gates_meth_witness :
    wrap_setter_method wExtractErr wMeth wStateEmpty 3 4
      = wrap_setter_method wExtractErr wMeth2 wStateEmpty 3 4
    ∧ (wrap_setter_method wExtractErr wMeth wStateEmpty 3 4).1 = -1
    ∧ (wrap_setter_method wExtractErr wMeth wStateEmpty 3 4).2.pending = some 7 :=
  (setter_extract_gates_meth wExtractErr wMeth wMeth2 wStateEmpty 3 4).1 7 rfl

/-- C7: for pointer width w the platform limit constants are bit-exact to the
Py_ssize_t limits: PY_SSIZE_T_MAX equals 2 to the (w-1) minus 1, PY_SSIZE_T_MIN
equals minus 2 to the (w-1), and these are the greatest and least values
representable in the signed pointer-sized integer type. -/
theorem py_ssize_t_limits (w : Nat) (h : 0 < w) :
    PY_SSIZE_T_MAX w = 2 ^ (w - 1) - 1
    ∧ PY_SSIZE_T_MIN w = -(2 ^ (w - 1) : Int)
    ∧ ssizeRepresentable w (PY_SSIZE_T_MAX w)
    ∧ ssizeRepresentable w (PY_SSIZE_T_MIN w)
    ∧ (∀ x : Int, ssizeRepresentable w x →
        PY_SSIZE_T_MIN w ≤ x ∧ x ≤ PY_SSIZE_T_MAX w) := by
  have hw : w - 1 + 1 = w := Nat.succ_pred_eq_of_pos h
  have hps : (0:Nat) < 2 ^ (w - 1) := pow_pos (by norm_num) (w - 1)
  have h2w : (2:Nat) ^ w = 2 ^ (w - 1) * 2 := by rw [← pow_succ, hw]
  have hIpos : (0:Int) < 2 ^ (w - 1) := pow_pos (by norm_num) (w - 1)
  have hI : (2:Int) ^ w = 2 ^ (w - 1) * 2 := by rw [← pow_succ, hw]
  have hmax : PY_SSIZE_T_MAX w = 2 ^ (w - 1) - 1 := by
    unfold PY_SSIZE_T_MAX isizeMAX toSigned
    rw [if_pos (Nat.sub_lt hps (by norm_num))]
    rw [Nat.cast_sub hps]
    push_cast
    ring
  have hmin : PY_SSIZE_T_MIN w = -(2 ^ (w - 1) : Int) := by
    unfold PY_SSIZE_T_MIN isizeMIN toSigned
    rw [if_neg (lt_irrefl _)]
    push_cast
    rw [hI]
    ring
  refine ⟨hmax, hmin, ?_, ?_, ?_⟩
  · exact ⟨2 ^ (w - 1) - 1, by omega, rfl⟩
  · exact ⟨2 ^ (w - 1), by omega, rfl⟩
  · rintro x ⟨b, hb, rfl⟩
    unfold toSigned
    rw [hmax, hmin]
    have hbwI : (b:Int) < 2 ^ w := by exact_mod_cast hb
    have hb0 : (0:Int) ≤ (b:Int) := Int.natCast_nonneg b
    split_ifs with hbs
    · have hbI : (b:Int) < 2 ^ (w - 1) := by exact_mod_cast hbs
      have hd : (b:Int) + 1 ≤ 2 ^ (w - 1) := Int.add_one_le_iff.mpr hbI
      constructor <;> linarith
    · have hbI2 : (2:Int) ^ (w - 1) ≤ (b:Int) := by
        exact_mod_cast Nat.le_of_not_lt hbs
      have hd : (b:Int) + 1 ≤ 2 ^ w := Int.add_one_le_iff.mpr hbwI
      have h1 : (0:Int) + 1 ≤ 2 ^ (w - 1) := Int.add_one_le_iff.mpr hIpos
      constructor <;> linarith

/-- Witness for C7 at the concrete pointer width 64. -/
theorem py_ssize_t_limits_witness :
    PY_SSIZE_T_MAX 64 = 9223372036854775807
    ∧ PY_SSIZE_T_MIN 64 = -9223372036854775808 :=
  ⟨((py_ssize_t_limits 64 (by decide)).1).trans (by norm_num),
   ((py_ssize_t_limits 64 (by decide)).2.1).trans (by norm_num)⟩

end RustCpython
